/-
Verification of the adaptive scraping scheduler and price-drop detection
pipeline of the sharkted-front repository, as a shallow embedding in Lean 4.

Conventions of the embedding:
* Python floats are modelled as exact rationals (ℚ).  For every concrete
  state reachable in the properties below the float computations of the
  source agree with exact rational arithmetic (in particular,
  int(n*0.9 + n*0.1) = n holds in IEEE double for every integer interval
  0 ≤ n ≤ 200, and the moving averages compared against 0.5 / 10 stay far
  from the cutoffs), so the rational model is faithful on those states.
* Python round(x, k) rounds half to even; roundHalfEven below mirrors it.
* Python truthiness of an optional numeric column (None and 0.0 are falsy)
  is modelled by truthyQ.
* SQLAlchemy rows are Lean structures; a query result is a Lean list in
  insertion order; timestamps are rationals counted in hours.
* Fallible paths are Except values; the asyncio.gather(..,
  return_exceptions=True) result list is modelled by a function from source
  name to Except.
-/
import Mathlib

/-! ## Python semantics helpers -/

/-- Truthiness of an optional numeric value in Python: `None` and `0` are
falsy, every other number is truthy. -/
def truthyQ : Option ℚ → Bool
  | none => false
  | some q => q ≠ 0

/-- Round a rational to the nearest integer, ties to even — the rounding
used by Python's built-in round(). -/
def roundHalfEven (q : ℚ) : ℤ :=
  let n := ⌊q⌋
  let f := q - n
  if f < 1/2 then n
  else if 1/2 < f then n + 1
  else if Even n then n else n + 1

/-- Python round(x, 1). -/
def pyRound1 (q : ℚ) : ℚ := (roundHalfEven (10 * q) : ℚ) / 10

/-- Python round(x, 2). -/
def pyRound2 (q : ℚ) : ℚ := (roundHalfEven (100 * q) : ℚ) / 100

/-! ## Price tracking service
    (src/apps/api/app/services/price_tracking_service.py) -/

/-- DROP_THRESHOLD_VOLATILE = 0.10. -/
def DROP_THRESHOLD_VOLATILE : ℚ := 10/100

/-- DROP_THRESHOLD_STABLE = 0.15. -/
def DROP_THRESHOLD_STABLE : ℚ := 15/100

/-- DROP_THRESHOLD_DEFAULT = 0.12. -/
def DROP_THRESHOLD_DEFAULT : ℚ := 12/100

/-- VOLATILITY_THRESHOLD = 0.15. -/
def VOLATILITY_THRESHOLD : ℚ := 15/100

/-- The DealPriceStats row of app/models/price_history.py.  Nullable
columns are Options; is_price_drop is the 0/1 integer column. -/
structure DealPriceStats where
  current_price : ℚ
  previous_price : Option ℚ
  min_price_30d : Option ℚ
  max_price_30d : Option ℚ
  avg_price_30d : Option ℚ
  median_price_30d : Option ℚ
  min_price_7d : Option ℚ
  max_price_7d : Option ℚ
  price_volatility : Option ℚ
  price_trend : Option String
  is_price_drop : ℕ
  drop_percent : Option ℚ
  drop_detected_at : Option ℚ
  price_changes_count : ℕ
  observations_count : ℕ
  first_seen_at : ℚ
  last_updated_at : ℚ
  deriving DecidableEq

/-- A PriceHistory row (one immutable price observation). -/
structure PriceHistoryEntry where
  price : ℚ
  original_price : Option ℚ
  observed_at : ℚ
  deriving DecidableEq

/-- The per-deal slice of the database touched by the service: the optional
DealPriceStats row and the PriceHistory rows of one deal, in insertion
order. -/
structure PriceDB where
  stats : Option DealPriceStats
  history : List PriceHistoryEntry
  deriving DecidableEq

/-- Threshold selection of _detect_drop.  Python:
`if stats.price_volatility and stats.price_volatility > VOLATILITY_THRESHOLD`
(the binary `and` first tests truthiness, so volatility None or 0 falls to
the default branch). -/
def dropThreshold (stats : DealPriceStats) : ℚ :=
  if truthyQ stats.price_volatility ∧ stats.price_volatility.getD 0 > VOLATILITY_THRESHOLD then
    DROP_THRESHOLD_VOLATILE
  else if truthyQ stats.price_volatility ∧ stats.price_volatility.getD 0 < 5/100 then
    DROP_THRESHOLD_STABLE
  else
    DROP_THRESHOLD_DEFAULT

/-- _detect_drop: signal 1 compares against min_price_30d, signal 2 against
previous_price; the first signal that fires determines the reported drop
percentage. -/
def detect_drop (current_price : ℚ) (stats : DealPriceStats) : Bool × Option ℚ :=
  let threshold := dropThreshold stats
  if truthyQ stats.min_price_30d ∧ stats.min_price_30d.getD 0 > 0 ∧
      current_price ≤ stats.min_price_30d.getD 0 * (1 - threshold) then
    (true, some (pyRound1 ((1 - current_price / stats.min_price_30d.getD 0) * 100)))
  else if truthyQ stats.previous_price ∧ stats.previous_price.getD 0 > 0 ∧
      current_price ≤ stats.previous_price.getD 0 * (1 - threshold) then
    (true, some (pyRound1 ((1 - current_price / stats.previous_price.getD 0) * 100)))
  else
    (false, none)

/-- min of a list of rationals (min() over a nonempty Python list; 0 for
the empty list, which the callers never hit). -/
def listMin : List ℚ → ℚ
  | [] => 0
  | x :: xs => xs.foldl min x

/-- max of a list of rationals. -/
def listMax : List ℚ → ℚ
  | [] => 0
  | x :: xs => xs.foldl max x

/-- statistics.mean. -/
def listMean (l : List ℚ) : ℚ := l.sum / l.length

/-- statistics.median: middle of the sorted list, or the mean of the two
middle elements for even length. -/
def listMedian (l : List ℚ) : ℚ :=
  let s := l.mergeSort (· ≤ ·)
  if l.length % 2 = 1 then s.getD (l.length / 2) 0
  else (s.getD (l.length / 2 - 1) 0 + s.getD (l.length / 2) 0) / 2

/-- Trend over the last three in-window prices (insertion order):
down if last < first*0.95, up if last > first*1.05, else stable. -/
def trendOf (prices : List ℚ) : String :=
  let recent := prices.drop (prices.length - 3)
  let first := recent.getD 0 0
  let last := recent.getD (recent.length - 1) 0
  if last < first * (95/100) then "down"
  else if last > first * (105/100) then "up"
  else "stable"

/-- Prices of the history rows observed at or after the cutoff, with falsy
(zero) prices dropped — `[p[0] for p in prices if p[0]]`. -/
def pricesSince (history : List PriceHistoryEntry) (cutoff : ℚ) : List ℚ :=
  ((history.filter (fun h => cutoff ≤ h.observed_at)).map (·.price)).filter (· ≠ 0)

/-- _update_price_stats.  The 30-day and 7-day aggregates are recomputed
from the history.  The coefficient of variation round(stdev(prices)/avg, 3)
is irrational in general, so it is supplied as an abstract recompute
function `vol`; every theorem below is universally quantified over it.
All other fields are modelled exactly.  Timestamps are counted in hours,
so the 30-day cutoff is now − 30*24 and the 7-day cutoff now − 7*24. -/
def update_price_stats (vol : List ℚ → Option ℚ) (now : ℚ)
    (history : List PriceHistoryEntry) (stats : DealPriceStats) : DealPriceStats :=
  let prices30 := pricesSince history (now - 30 * 24)
  let s1 :=
    if prices30 = [] then stats else
      let avg30 := pyRound2 (listMean prices30)
      { stats with
        min_price_30d := some (listMin prices30)
        max_price_30d := some (listMax prices30)
        avg_price_30d := some avg30
        median_price_30d := some (pyRound2 (listMedian prices30))
        price_volatility :=
          if 1 < prices30.length ∧ 0 < avg30 then vol prices30 else stats.price_volatility
        price_trend :=
          if 3 ≤ prices30.length then some (trendOf prices30) else stats.price_trend }
  let prices7 := pricesSince history (now - 7 * 24)
  if prices7 = [] then s1 else
    { s1 with min_price_7d := some (listMin prices7), max_price_7d := some (listMax prices7) }

/-- Result of record_price_observation: the returned pair and the state of
the deal's rows after commit. -/
structure RecordResult where
  is_drop : Bool
  drop_percent : Option ℚ
  db : PriceDB
  deriving DecidableEq

/-- The current-to-previous shift record_price_observation performs before
calling _detect_drop when the price moved beyond the epsilon. -/
def shiftStats (st : DealPriceStats) (price : ℚ) : DealPriceStats :=
  { st with previous_price := some st.current_price, current_price := price,
            price_changes_count := st.price_changes_count + 1 }

/-- The drop-field writes record_price_observation performs when
_detect_drop fired. -/
def applyDropFields (now : ℚ) (dd : Bool × Option ℚ) (st : DealPriceStats) :
    DealPriceStats :=
  if dd.1 then
    { st with is_price_drop := 1, drop_percent := dd.2, drop_detected_at := some now }
  else st

/-- record_price_observation.  First observation seeds the stats row and
never reports a drop; otherwise, when the price moved by more than the 0.01
epsilon, current shifts to previous and _detect_drop classifies the new
price.  A PriceHistory row is always appended, and every 5th observation
(or the first) triggers the full recompute. -/
def record_price_observation (vol : List ℚ → Option ℚ) (now : ℚ)
    (price : ℚ) (original_price : Option ℚ) (db : PriceDB) : RecordResult :=
  match db.stats with
  | none =>
      let stats0 : DealPriceStats :=
        { current_price := price
          previous_price := none
          min_price_30d := some price
          max_price_30d := some price
          avg_price_30d := some price
          median_price_30d := none
          min_price_7d := none
          max_price_7d := none
          price_volatility := none
          price_trend := none
          is_price_drop := 0
          drop_percent := none
          drop_detected_at := none
          price_changes_count := 0
          observations_count := 1
          first_seen_at := now
          last_updated_at := now }
      let history1 := db.history ++ [⟨price, original_price, now⟩]
      let stats1 := update_price_stats vol now history1 stats0
      ⟨false, none, ⟨some stats1, history1⟩⟩
  | some st =>
      let changed := |price - st.current_price| > 1/100
      let stMid := if changed then shiftStats st price else st
      let dd := if changed then detect_drop price (shiftStats st price) else (false, none)
      let stDrop := applyDropFields now dd stMid
      let stCount := { stDrop with observations_count := stDrop.observations_count + 1,
                                   last_updated_at := now }
      let history1 := db.history ++ [⟨price, original_price, now⟩]
      let stats1 :=
        if stCount.observations_count % 5 = 0 then update_price_stats vol now history1 stCount
        else stCount
      ⟨dd.1, dd.2, ⟨some stats1, history1⟩⟩

/-- Per-deal display data joined by get_price_drops. -/
structure DealInfo where
  deal_id : ℕ
  title : String
  deriving DecidableEq

/-- The SQL filter of get_price_drops: is_price_drop == 1, drop_percent >=
min_drop_percent and drop_detected_at >= cutoff (a NULL column fails the
comparison). -/
def priceDropFilter (min_drop_percent : ℚ) (cutoff : ℚ)
    (stats : DealPriceStats) : Bool :=
  decide (stats.is_price_drop = 1) &&
  (match stats.drop_percent with
   | some d => decide (min_drop_percent ≤ d)
   | none => false) &&
  (match stats.drop_detected_at with
   | some t => decide (cutoff ≤ t)
   | none => false)

/-- get_price_drops over the joined rows: filter, order by drop_percent
descending, limit. -/
def get_price_drops (min_drop_percent : ℚ) (limit : ℕ) (hours : ℚ) (now : ℚ)
    (rows : List (DealPriceStats × DealInfo)) : List (DealPriceStats × DealInfo) :=
  let cutoff := now - hours
  ((rows.filter (fun r => priceDropFilter min_drop_percent cutoff r.1)).mergeSort
    (fun a b => b.1.drop_percent.getD 0 ≤ a.1.drop_percent.getD 0)).take limit

/-- A PriceHistory row tagged with its deal, for the retention sweep. -/
structure HistoryRow where
  deal_id : ℕ
  observed_at : ℚ
  deriving DecidableEq

/-- cleanup_old_history(days): deletes every PriceHistory row strictly
older than now − days (timestamps in hours, so the cutoff is now − 24*days);
returns the remaining rows and the deleted count. -/
def cleanup_old_history (days : ℕ) (now : ℚ)
    (rows : List HistoryRow) : List HistoryRow × ℕ :=
  let cutoff := now - 24 * (days : ℚ)
  (rows.filter (fun r => ¬ r.observed_at < cutoff),
   (rows.filter (fun r => r.observed_at < cutoff)).length)

/-! ## Smart scheduler (src/apps/api/app/services/smart_scheduler.py) -/

/-- The three scrape layers. -/
inductive ScrapeLayer where
  | seed
  | category
  | watchlist
  deriving DecidableEq

/-- DEFAULT_LAYER_CONFIGS interval_minutes: seed 15, category 60,
watchlist 10. -/
def defaultIntervalMinutes : ScrapeLayer → ℕ
  | .seed => 15
  | .category => 60
  | .watchlist => 10

/-- The sources that appear in SOURCE_LAYER_URLS and therefore get a
schedule in _init_schedules. -/
def scheduledSources : List String := ["jdsports", "size", "courir", "footlocker"]

/-- The genuinely per-source fields of SourceSchedule. -/
structure SourceScheduleState where
  success_rate : ℚ
  avg_new_products : ℚ
  last_scrape : ScrapeLayer → Option ℚ

/-- State of a SmartScheduler instance.  _init_schedules builds each
source's `layers` dict with DEFAULT_LAYER_CONFIGS.copy(): a SHALLOW dict
copy, so every source's layers dict and DEFAULT_LAYER_CONFIGS itself all
hold the same three LayerConfig objects.  The mutable interval_minutes is
therefore per-layer state shared by all sources (and by the "defaults"),
which `configs` models; success_rate, avg_new_products and last_scrape
live on each SourceSchedule and are per-source. -/
structure SmartSchedulerState where
  configs : ScrapeLayer → ℕ
  sched : String → Option SourceScheduleState

/-- A fresh SmartScheduler(). -/
def initScheduler : SmartSchedulerState :=
  { configs := defaultIntervalMinutes
    sched := fun s =>
      if s ∈ scheduledSources then
        some { success_rate := 1, avg_new_products := 0, last_scrape := fun _ => none }
      else none }

/-- mark_completed.  Because of the shared LayerConfig objects,
`base_interval = DEFAULT_LAYER_CONFIGS[layer].interval_minutes` reads the
same mutable field as `config.interval_minutes`, so both are the current
interval.  Rule 1 (updated success rate < 0.5) sets min(base*2, 120);
rule 2 (updated avg new products > 10) sets max(base // 2, 5); rule 3 sets
int(current*0.9 + base*0.1), which equals the current interval. -/
def mark_completed (source : String) (layer : ScrapeLayer) (success : Bool)
    (new_products : ℕ) (now : ℚ) (st : SmartSchedulerState) : SmartSchedulerState :=
  match st.sched source with
  | none => st
  | some sch =>
      let rate := if success then sch.success_rate * (9/10) + 1/10
                  else sch.success_rate * (9/10)
      let avg := sch.avg_new_products * (8/10) + (new_products : ℚ) * (2/10)
      let current := st.configs layer
      let base_interval := st.configs layer
      let newInterval :=
        if rate < 1/2 then min (base_interval * 2) 120
        else if avg > 10 then max (base_interval / 2) 5
        else ⌊(current : ℚ) * (9/10) + (base_interval : ℚ) * (1/10)⌋.toNat
      { configs := fun l => if l = layer then newInterval else st.configs l
        sched := fun s =>
          if s = source then
            some { success_rate := rate, avg_new_products := avg,
                   last_scrape := fun l => if l = layer then some now else sch.last_scrape l }
          else st.sched s }

/-- One reported outcome. -/
structure OutcomeReport where
  source : String
  layer : ScrapeLayer
  success : Bool
  new_products : ℕ
  now : ℚ

/-- Fold a sequence of outcome reports over the scheduler state. -/
def applyReports (reports : List OutcomeReport) (st : SmartSchedulerState) :
    SmartSchedulerState :=
  reports.foldl
    (fun s r => mark_completed r.source r.layer r.success r.new_products r.now s) st

/-- The polling interval a given source observes for a layer: defined when
the source has a schedule, and read through the shared LayerConfig. -/
def sourceLayerInterval (st : SmartSchedulerState) (source : String)
    (layer : ScrapeLayer) : Option ℕ :=
  (st.sched source).map (fun _ => st.configs layer)

/-- n consecutive failing reports for (jdsports, seed), half an hour apart. -/
def failRun : ℕ → SmartSchedulerState
  | 0 => initScheduler
  | n + 1 => mark_completed "jdsports" .seed false 0 (n : ℚ) (failRun n)

/-! ## Scoring engine (src/apps/api/services/scoring_service.py, config.py) -/

/-- One CATEGORY_WEIGHTS entry. -/
structure CatConfig where
  liquidity_weight : ℚ
  popularity_weight : ℚ
  margin_threshold : ℚ
  expected_sell_days : ℕ
  deriving DecidableEq

/-- CATEGORY_WEIGHTS of config.py. -/
def CATEGORY_WEIGHTS : List (String × CatConfig) :=
  [("sneakers_lifestyle", ⟨9/10, 95/100, 25, 7⟩),
   ("sneakers_running", ⟨7/10, 6/10, 35, 14⟩),
   ("textile_premium", ⟨85/100, 8/10, 30, 10⟩),
   ("textile_streetwear", ⟨8/10, 85/100, 25, 7⟩),
   ("accessoires", ⟨75/100, 7/10, 20, 14⟩)]

/-- CATEGORY_WEIGHTS.get(category, CATEGORY_WEIGHTS["sneakers_lifestyle"]). -/
def catConfigOf (category : String) : CatConfig :=
  (CATEGORY_WEIGHTS.lookup category).getD ⟨9/10, 95/100, 25, 7⟩

/-- One BRAND_TIERS entry. -/
structure BrandInfo where
  tier : String
  popularity_bonus : ℚ
  deriving DecidableEq

/-- BRAND_TIERS of config.py (keys are lowercase). -/
def BRAND_TIERS : List (String × BrandInfo) :=
  [("nike", ⟨"S", 12/10⟩), ("jordan", ⟨"S", 125/100⟩), ("adidas", ⟨"S", 115/100⟩),
   ("ralph lauren", ⟨"A", 11/10⟩), ("new balance", ⟨"A", 11/10⟩),
   ("asics", ⟨"A", 105/100⟩), ("lacoste", ⟨"A", 105/100⟩),
   ("puma", ⟨"B", 1⟩), ("reebok", ⟨"B", 1⟩), ("tommy hilfiger", ⟨"B", 1⟩),
   ("converse", ⟨"B", 1⟩),
   ("fila", ⟨"C", 9/10⟩), ("le coq sportif", ⟨"C", 9/10⟩)]

/-- _get_margin_score: piecewise margin-percent curve plus an absolute
margin bonus, capped at 100. -/
def get_margin_score (margin_percent margin_euro : ℚ) (category : String) : ℚ :=
  let threshold := (catConfigOf category).margin_threshold
  let base_score :=
    if margin_percent ≤ 0 then 0
    else if margin_percent < threshold then (margin_percent / threshold) * 50
    else if margin_percent < threshold * 2 then
      50 + ((margin_percent - threshold) / threshold) * 30
    else 80 + min ((margin_percent - threshold * 2) / 20) 20
  let euro_bonus : ℚ :=
    if margin_euro ≥ 50 then 10
    else if margin_euro ≥ 30 then 5
    else if margin_euro ≥ 20 then 2
    else 0
  min (base_score + euro_bonus) 100

/-- _get_liquidity_score: listings-count step curve blended 40/60 with the
marketplace liquidity figure, scaled by the category weight. -/
def get_liquidity_score (nb_listings : ℕ) (liquidity_from_vinted : ℚ)
    (category : String) : ℚ :=
  let liquidity_weight := (catConfigOf category).liquidity_weight
  let listings_score : ℚ :=
    if nb_listings = 0 then 0
    else if nb_listings < 5 then 20
    else if nb_listings < 15 then 40
    else if nb_listings < 30 then 60
    else if nb_listings < 50 then 80
    else 100
  (listings_score * (4/10) + liquidity_from_vinted * (6/10)) * liquidity_weight

/-- _get_popularity_score: brand-tier base (S/A/B/other → 85/70/55/40)
scaled by the brand bonus, default 50, scaled by the category weight and
capped at 100.  `if brand:` is Python truthiness, so the empty string keeps
the default. -/
def get_popularity_score (brand : Option String) (category : String) : ℚ :=
  let popularity_weight := (catConfigOf category).popularity_weight
  let base_score : ℚ :=
    match brand with
    | none => 50
    | some b =>
        if b = "" then 50
        else match BRAND_TIERS.lookup b.toLower with
          | none => 50
          | some info =>
              (if info.tier = "S" then (85 : ℚ)
               else if info.tier = "A" then 70
               else if info.tier = "B" then 55
               else 40) * info.popularity_bonus
  min (base_score * popularity_weight) 100

/-- The standard sizes set of _get_contextual_bonus. -/
def standardSizes : List String := ["40", "41", "42", "43", "44", "M", "L", "S"]

/-- The safe colours of _get_contextual_bonus. -/
def safeColors : List String := ["noir", "black", "blanc", "white", "gris", "grey", "gray"]

/-- _get_contextual_bonus: discount bonus, standard-size bonus (set
intersection, so duplicates collapse), safe-colour substring bonus, and a
season malus. -/
def get_contextual_bonus (discount_percent : ℚ) (sizes_available : Option (List String))
    (color : Option String) (season_match : Bool) : ℚ :=
  let b1 : ℚ := if discount_percent ≥ 70 then 10 else if discount_percent ≥ 50 then 5 else 0
  let b2 : ℚ :=
    match sizes_available with
    | none => 0
    | some sizes =>
        if sizes = [] then 0
        else
          let matching := (sizes.dedup.filter (· ∈ standardSizes)).length
          if matching ≥ 3 then 5 else if matching ≥ 1 then 2 else 0
  let b3 : ℚ :=
    match color with
    | none => 0
    | some c =>
        if c = "" then 0
        else if safeColors.any (fun s => decide (s.toList <:+: c.toLower.toList)) then 3 else 0
  let b4 : ℚ := if season_match then 0 else -5
  b1 + b2 + b3 + b4

/-- calculate_flip_score: final score and the four components.  The
contextual bonus is added directly (unweighted); _get_contextual_bonus is
called without season_match, so the Python default True applies. -/
def calculate_flip_score (margin_percent margin_euro : ℚ) (nb_listings : ℕ)
    (liquidity_score : ℚ) (brand : Option String) (category : String)
    (discount_percent : ℚ) (sizes_available : Option (List String))
    (color : Option String) : ℚ × ℚ × ℚ × ℚ × ℚ :=
  let margin_score := get_margin_score margin_percent margin_euro category
  let liq_score := get_liquidity_score nb_listings liquidity_score category
  let pop_score := get_popularity_score brand category
  let ctx_bonus := get_contextual_bonus discount_percent sizes_available color true
  let weighted_score :=
    margin_score * (40/100) + liq_score * (30/100) + pop_score * (20/100) + ctx_bonus
  let final_score := max 0 (min 100 weighted_score)
  (pyRound1 final_score, pyRound1 margin_score, pyRound1 liq_score,
   pyRound1 pop_score, pyRound1 ctx_bonus)

/-- The composite formula of the specification, spelled from its words:
margin×0.40 + liquidity×0.30 + popularity×0.20 + (100−risk)×0.10. -/
def specCompositeFormula (margin liquidity popularity risk : ℚ) : ℚ :=
  margin * (40/100) + liquidity * (30/100) + popularity * (20/100) +
    (100 - risk) * (10/100)

/-- get_recommendation: (action, confidence) from the score and margins. -/
def get_recommendation (flip_score margin_percent margin_euro : ℚ) : String × ℚ :=
  if flip_score ≥ 80 ∧ margin_percent ≥ 30 ∧ margin_euro ≥ 20 then
    ("buy", min (95/100) (flip_score / 100))
  else if flip_score ≥ 70 ∧ margin_percent ≥ 25 then
    ("buy", min (85/100) (flip_score / 100))
  else if flip_score ≥ 60 ∧ margin_percent ≥ 20 then
    ("watch", 6/10 + (flip_score - 60) / 100)
  else if flip_score ≥ 50 then
    ("watch", 1/2)
  else
    ("ignore", 3/10 + flip_score / 200)

/-! ## Scrape orchestrator (src/apps/api/services/scraping_orchestrator.py) -/

/-- The per-source result dict built by _run_single_scraper on success. -/
structure SourceRunResult where
  scraped : ℕ
  new_deals : List ℕ
  updated_deals : ℕ
  deriving DecidableEq

/-- A by_source entry: either the success dict or the
{"status": "error", "error": msg} dict. -/
abbrev SourceEntry := Except String SourceRunResult

/-- Python dict assignment d[k] = v: replace in place if the key exists,
else append. -/
def dictInsert (d : List (String × α)) (k : String) (v : α) : List (String × α) :=
  if (d.lookup k).isSome then
    d.map (fun p => if p.1 = k then (k, v) else p)
  else d ++ [(k, v)]

/-- The results dict of run_all_scrapers. -/
structure OrchestratorResults where
  total_scraped : ℕ
  total_new_deals : ℕ
  total_scored : ℕ
  errors : List (String × String)
  by_source : List (String × SourceEntry)

/-- One iteration of the result-processing loop of run_all_scrapers over
the outcome of asyncio.gather(.., return_exceptions=True): a raised
exception becomes an error entry and an error by_source record; a success
contributes its counts and its new deals. -/
def processStep (outcome : String → Except String SourceRunResult)
    (acc : OrchestratorResults × List ℕ) (name : String) :
    OrchestratorResults × List ℕ :=
  match outcome name with
  | .error e =>
      ({ acc.1 with
          errors := acc.1.errors ++ [(name, e)]
          by_source := dictInsert acc.1.by_source name (.error e) }, acc.2)
  | .ok r =>
      ({ acc.1 with
          by_source := dictInsert acc.1.by_source name (.ok r)
          total_scraped := acc.1.total_scraped + r.scraped
          total_new_deals := acc.1.total_new_deals + r.new_deals.length },
       acc.2 ++ r.new_deals)

/-- The result-processing loop of run_all_scrapers. -/
def processResults (active_sources : List String)
    (outcome : String → Except String SourceRunResult) :
    OrchestratorResults × List ℕ :=
  active_sources.foldl (processStep outcome) (⟨0, 0, 0, [], []⟩, [])

/-- run_all_scrapers: process the gathered per-source outcomes, then score
the accumulated new deals (scoreOk tells which deals survive the per-deal
try/except of _score_deals).  Always returns a results value; a failing
source never aborts the batch. -/
def run_all_scrapers (active_sources : List String)
    (outcome : String → Except String SourceRunResult)
    (scoreOk : ℕ → Bool) : OrchestratorResults :=
  let p := processResults active_sources outcome
  { p.1 with total_scored := (p.2.filter scoreOk).length }

/-! ## Helper lemmas: scheduler -/

/-- Rule 3 of mark_completed is the identity on the interval: with the
aliased baseline, int(n*0.9 + n*0.1) = n. -/
theorem rule3_id (b : ℕ) : (⌊(b : ℚ) * (9/10) + (b : ℚ) * (1/10)⌋).toNat = b := by
  have h : (b : ℚ) * (9/10) + (b : ℚ) * (1/10) = (b : ℚ) := by ring
  rw [h, Int.floor_natCast]
  exact Int.toNat_natCast b

/-- The retuned interval stays within [5, 120] whatever the updated rate
and average are, provided the current interval is within [5, 120]. -/
theorem interval_update_bounds (b : ℕ) (hb : 5 ≤ b ∧ b ≤ 120) (rate avg : ℚ) :
    5 ≤ (if rate < 1/2 then min (b * 2) 120
         else if avg > 10 then max (b / 2) 5
         else ⌊(b : ℚ) * (9/10) + (b : ℚ) * (1/10)⌋.toNat) ∧
    (if rate < 1/2 then min (b * 2) 120
     else if avg > 10 then max (b / 2) 5
     else ⌊(b : ℚ) * (9/10) + (b : ℚ) * (1/10)⌋.toNat) ≤ 120 := by
  obtain ⟨hb1, hb2⟩ := hb
  split_ifs
  · exact ⟨le_min (by omega) (by omega), min_le_right _ _⟩
  · exact ⟨le_max_right _ _, max_le (by omega) (by omega)⟩
  · rw [rule3_id]
    exact ⟨hb1, hb2⟩

/-- One mark_completed call keeps every layer interval within [5, 120]. -/
theorem mark_completed_bounds (st : SmartSchedulerState) (source : String)
    (layer : ScrapeLayer) (success : Bool) (np : ℕ) (now : ℚ)
    (h : ∀ l, 5 ≤ st.configs l ∧ st.configs l ≤ 120) :
    ∀ l, 5 ≤ (mark_completed source layer success np now st).configs l ∧
         (mark_completed source layer success np now st).configs l ≤ 120 := by
  intro l
  unfold mark_completed
  cases hs : st.sched source with
  | none => exact h l
  | some sch =>
      dsimp only
      by_cases hl : l = layer
      · rw [if_pos hl]
        exact interval_update_bounds (st.configs layer) (h layer) _ _
      · rw [if_neg hl]
        exact h l

/-- applyReports keeps every layer interval within [5, 120]. -/
theorem applyReports_bounds (reports : List OutcomeReport) (st : SmartSchedulerState)
    (h : ∀ l, 5 ≤ st.configs l ∧ st.configs l ≤ 120) :
    ∀ l, 5 ≤ (applyReports reports st).configs l ∧
         (applyReports reports st).configs l ≤ 120 := by
  induction reports generalizing st with
  | nil => exact h
  | cons r rs ih =>
      exact ih (mark_completed r.source r.layer r.success r.new_products r.now st)
        (mark_completed_bounds st r.source r.layer r.success r.new_products r.now h)

/-- The jdsports schedule along the failing run: success rate (9/10)^n and
zero rolling new-product average. -/
theorem failRun_rate : ∀ n, ∃ sch, (failRun n).sched "jdsports" = some sch ∧
    sch.success_rate = (9/10 : ℚ)^n ∧ sch.avg_new_products = 0 := by
  intro n
  induction n with
  | zero =>
      refine ⟨{ success_rate := 1, avg_new_products := 0, last_scrape := fun _ => none },
        ?_, by norm_num, rfl⟩
      show initScheduler.sched "jdsports" = _
      unfold initScheduler
      dsimp only
      rw [if_pos (by simp [scheduledSources])]
  | succ n ih =>
      obtain ⟨sch, hs, hrate, havg⟩ := ih
      have hstep : (failRun (n+1)).sched "jdsports" =
          some { success_rate := sch.success_rate * (9/10),
                 avg_new_products := sch.avg_new_products * (8/10),
                 last_scrape := fun l =>
                   if l = ScrapeLayer.seed then some (n : ℚ) else sch.last_scrape l } := by
        show (mark_completed "jdsports" .seed false 0 (n : ℚ) (failRun n)).sched
            "jdsports" = _
        unfold mark_completed
        rw [hs]
        simp
      refine ⟨_, hstep, ?_, ?_⟩
      · show sch.success_rate * (9/10) = _
        rw [hrate]
        ring
      · show sch.avg_new_products * (8/10) = 0
        rw [havg]
        ring

/-- (9/10)^k drops below 1/2 exactly from the 7th failing report on. -/
theorem ninetyPow_lt_half {k : ℕ} (hk : 7 ≤ k) : (9/10 : ℚ)^k < 1/2 :=
  lt_of_le_of_lt (pow_le_pow_of_le_one (by norm_num) (by norm_num) hk) (by norm_num)

/-- (9/10)^k is at least 1/2 up to the 6th failing report. -/
theorem ninetyPow_ge_half {k : ℕ} (hk : k ≤ 6) : ¬ ((9/10 : ℚ)^k < 1/2) := by
  have h := pow_le_pow_of_le_one (a := (9/10 : ℚ)) (by norm_num) (by norm_num) hk
  have h6 : (1/2 : ℚ) ≤ (9/10 : ℚ)^6 := by norm_num
  exact not_lt.2 (le_trans h6 h)

/-- The seed interval along the failing run: 15 for the first six reports,
then 30, 60, 120, and 120 from then on. -/
theorem failRun_interval : ∀ n, (failRun n).configs ScrapeLayer.seed =
    (if n ≤ 6 then 15 else if n = 7 then 30 else if n = 8 then 60 else 120) := by
  intro n
  induction n with
  | zero =>
      show initScheduler.configs ScrapeLayer.seed = _
      norm_num [initScheduler, defaultIntervalMinutes]
  | succ n ih =>
      obtain ⟨sch, hs, hrate, havg⟩ := failRun_rate n
      have hstep : (failRun (n+1)).configs ScrapeLayer.seed =
          (if sch.success_rate * (9/10) < 1/2 then
             min ((failRun n).configs ScrapeLayer.seed * 2) 120
           else if sch.avg_new_products * (8/10) > 10 then
             max ((failRun n).configs ScrapeLayer.seed / 2) 5
           else ⌊((failRun n).configs ScrapeLayer.seed : ℚ) * (9/10) +
                 ((failRun n).configs ScrapeLayer.seed : ℚ) * (1/10)⌋.toNat) := by
        show (mark_completed "jdsports" .seed false 0 (n : ℚ) (failRun n)).configs
            ScrapeLayer.seed = _
        unfold mark_completed
        rw [hs]
        simp
      have hp : sch.success_rate * (9/10) = (9/10 : ℚ)^(n+1) := by
        rw [hrate, pow_succ]
      rw [hstep, hp, havg]
      by_cases h1 : n + 1 ≤ 6
      · rw [if_pos h1, if_neg (ninetyPow_ge_half h1), if_neg (by norm_num),
          ih, if_pos (by omega)]
        exact rule3_id 15
      · by_cases h2 : n + 1 = 7
        · rw [if_neg h1, if_pos h2, if_pos (ninetyPow_lt_half (by omega)),
            ih, if_pos (by omega)]
          omega
        · by_cases h3 : n + 1 = 8
          · rw [if_neg h1, if_neg h2, if_pos h3,
              if_pos (ninetyPow_lt_half (by omega)), ih,
              if_neg (by omega), if_pos (by omega)]
            omega
          · rw [if_neg h1, if_neg h2, if_neg h3,
              if_pos (ninetyPow_lt_half (by omega)), ih]
            by_cases h4 : n ≤ 6
            · omega
            · by_cases h5 : n = 7
              · omega
              · by_cases h6 : n = 8
                · rw [if_neg h4, if_neg h5, if_pos h6]
                  omega
                · rw [if_neg h4, if_neg h5, if_neg h6]
                  omega

/-- A scheduler state whose every source already has a failing record. -/
def failingState : SmartSchedulerState :=
  { configs := defaultIntervalMinutes
    sched := fun _ => some { success_rate := 0, avg_new_products := 0,
                             last_scrape := fun _ => none } }

/-- C3: whenever the updated rolling success rate is below 0.5,
mark_completed sets the layer interval to double the current interval,
capped at the 120-minute hard maximum; along the run of repeated failing
reports the seed interval never exceeds 120 and reaches exactly 120 from
the 9th failing report on. -/
theorem C3_failure_doubles_interval :
    (∀ (st : SmartSchedulerState) (source : String) (layer : ScrapeLayer)
       (success : Bool) (np : ℕ) (now : ℚ) (sch : SourceScheduleState),
       st.sched source = some sch →
       (if success then sch.success_rate * (9/10) + 1/10
        else sch.success_rate * (9/10)) < 1/2 →
       (mark_completed source layer success np now st).configs layer =
         min (st.configs layer * 2) 120 ∧
       (mark_completed source layer success np now st).configs layer ≤ 120) ∧
    (∀ n, (failRun n).configs ScrapeLayer.seed ≤ 120) ∧
    (∀ n, 9 ≤ n → (failRun n).configs ScrapeLayer.seed = 120) := by
  refine ⟨?_, ?_, ?_⟩
  · intro st source layer success np now sch hs hrate
    unfold mark_completed
    rw [hs]
    dsimp only
    rw [if_pos rfl, if_pos hrate]
    exact ⟨rfl, min_le_right _ _⟩
  · intro n
    rw [failRun_interval]
    split_ifs <;> norm_num
  · intro n hn
    rw [failRun_interval, if_neg (by omega), if_neg (by omega), if_neg (by omega)]

/-- Witness for C3 at concrete inputs: a failing report on a state whose
rate is already below the cutoff doubles the seed interval from 15 to 30,
and the 9th consecutive failing report reaches the 120 cap. -/
theorem C3_failure_doubles_interval_witness :
    (mark_completed "jdsports" ScrapeLayer.seed false 0 0 failingState).configs
        ScrapeLayer.seed = min (15 * 2) 120 ∧
    (failRun 9).configs ScrapeLayer.seed = 120 := by
  obtain ⟨h1, _h2, h3⟩ := C3_failure_doubles_interval
  constructor
  · have := (h1 failingState "jdsports" ScrapeLayer.seed false 0 0
      { success_rate := 0, avg_new_products := 0, last_scrape := fun _ => none }
      rfl (by norm_num)).1
    simpa [failingState, defaultIntervalMinutes] using this
  · exact h3 9 le_rfl

/-- C4: for every finite sequence of outcome reports applied from the
default configuration, every layer interval stays within the hard bounds
[5, 120]. -/
theorem C4_interval_hard_bounds (reports : List OutcomeReport) (layer : ScrapeLayer) :
    5 ≤ (applyReports reports initScheduler).configs layer ∧
    (applyReports reports initScheduler).configs layer ≤ 120 :=
  applyReports_bounds reports initScheduler
    (fun l => by cases l <;> norm_num [initScheduler, defaultIntervalMinutes]) layer

/-- C8: because _init_schedules shares the LayerConfig objects between all
sources (a shallow dict copy), one mark_completed call for jdsports also
changes the seed interval that every other source observes: size starts at
15 and ends at 7 after a high-yield jdsports report. -/
theorem C8_report_mutates_other_sources :
    ("size" : String) ≠ "jdsports" ∧
    sourceLayerInterval initScheduler "size" ScrapeLayer.seed = some 15 ∧
    sourceLayerInterval
      (mark_completed "jdsports" ScrapeLayer.seed true 60 0 initScheduler)
      "size" ScrapeLayer.seed = some 7 := by
  refine ⟨by decide, ?_, ?_⟩
  · show (initScheduler.sched "size").map _ = _
    unfold initScheduler
    dsimp only
    rw [if_pos (by simp [scheduledSources])]
    rfl
  · show ((mark_completed "jdsports" ScrapeLayer.seed true 60 0 initScheduler).sched
        "size").map _ = _
    unfold mark_completed initScheduler
    dsimp only
    rw [if_pos (by simp [scheduledSources])]
    dsimp only
    norm_num
    refine ⟨⟨{ success_rate := 1, avg_new_products := 0, last_scrape := fun _ => none }, ?_⟩,
      by norm_num [defaultIntervalMinutes]⟩
    rw [if_neg (by decide), if_pos (by simp [scheduledSources])]

/-! ## Claims on the price tracking service -/

/-- A DealPriceStats row with every optional column unset, used as the base
of the concrete states below. -/
def baseStats : DealPriceStats :=
  { current_price := 100, previous_price := none, min_price_30d := none,
    max_price_30d := none, avg_price_30d := none, median_price_30d := none,
    min_price_7d := none, max_price_7d := none, price_volatility := none,
    price_trend := none, is_price_drop := 0, drop_percent := none,
    drop_detected_at := none, price_changes_count := 0, observations_count := 1,
    first_seen_at := 0, last_updated_at := 0 }

/-- C2 counterexample: a deal whose only PriceHistory row is 100 days old
has one observation before cleanup_old_history(90) and zero afterwards. -/
theorem C2_counterexample :
    (([⟨1, 0⟩] : List HistoryRow).filter (fun r => r.deal_id = 1)).length = 1 ∧
    ((cleanup_old_history 90 2400 [⟨1, 0⟩]).1.filter (fun r => r.deal_id = 1)) = [] := by
  constructor
  · rfl
  · norm_num [cleanup_old_history]

/-- C2 as the code has it: the purge deletes exactly the rows strictly
older than the cutoff, so a deal keeps an observation after the purge iff
it has one at or after now − 24·days; a deal all of whose observations are
older is left with none. -/
theorem C2_cleanup_characterization (days : ℕ) (now : ℚ) (rows : List HistoryRow)
    (d : ℕ) :
    ((cleanup_old_history days now rows).1.filter (fun r => r.deal_id = d) =
      rows.filter (fun r => r.deal_id = d ∧ ¬ r.observed_at < now - 24 * days)) ∧
    ((cleanup_old_history days now rows).1.filter (fun r => r.deal_id = d) ≠ [] ↔
      ∃ r ∈ rows, r.deal_id = d ∧ now - 24 * days ≤ r.observed_at) := by
  have h1 : (cleanup_old_history days now rows).1.filter (fun r => r.deal_id = d) =
      rows.filter (fun r => r.deal_id = d ∧ ¬ r.observed_at < now - 24 * days) := by
    show (rows.filter _).filter _ = _
    rw [List.filter_filter]
    apply List.filter_congr
    intro r _
    simp [and_comm]
  refine ⟨h1, ?_⟩
  rw [h1]
  constructor
  · intro hne
    obtain ⟨r, hr⟩ := List.exists_mem_of_ne_nil _ hne
    have := List.mem_filter.1 hr
    refine ⟨r, this.1, ?_⟩
    have h2 := this.2
    simp only [decide_eq_true_eq, not_lt] at h2
    exact h2
  · rintro ⟨r, hmem, hd, hle⟩
    intro hnil
    have : r ∈ rows.filter (fun r => r.deal_id = d ∧ ¬ r.observed_at < now - 24 * days) :=
      List.mem_filter.2 ⟨hmem, by simp [hd, not_lt.2 hle]⟩
    rw [hnil] at this
    exact absurd this (List.not_mem_nil r)

/-- Stats row with coefficient of variation stored as exactly 0. -/
def statsCVZero : DealPriceStats := { baseStats with price_volatility := some 0 }

/-- Stats row with CV 22%, 30-day floor 100 and previous price 100. -/
def statsCV22 : DealPriceStats :=
  { baseStats with price_volatility := some (22/100),
                   min_price_30d := some 100, previous_price := some 100 }

/-- Stats row identical to statsCV22 but with CV unset. -/
def statsCVUnset : DealPriceStats :=
  { baseStats with min_price_30d := some 100, previous_price := some 100 }

/-- C5 counterexample: CV = 0 is below the 5% stable cutoff, yet the
detector picks the 12% default threshold, not the stricter 15% one,
because 0.0 is falsy in the Python condition. -/
theorem C5_counterexample :
    statsCVZero.price_volatility = some 0 ∧ (0 : ℚ) < 5/100 ∧
    dropThreshold statsCVZero = DROP_THRESHOLD_DEFAULT ∧
    dropThreshold statsCVZero ≠ DROP_THRESHOLD_STABLE := by
  refine ⟨rfl, by norm_num, ?_, ?_⟩
  · norm_num [dropThreshold, statsCVZero, baseStats, truthyQ]
  · norm_num [dropThreshold, statsCVZero, baseStats, truthyQ,
      DROP_THRESHOLD_DEFAULT, DROP_THRESHOLD_STABLE]

/-- C5 (amended): the 10% threshold applies when CV is set and above the
15% cutoff; the 15% threshold applies when CV is set, nonzero and below the
5% cutoff; CV zero, unset or between the cutoffs gives the default 12%.
With CV 22% an 11% drop from the previous price (and 30-day floor equal to
it) fires, while with CV unset (default threshold) it does not. -/
theorem C5_adaptive_threshold :
    (∀ (st : DealPriceStats) (v : ℚ), st.price_volatility = some v →
      ((v ≠ 0 ∧ VOLATILITY_THRESHOLD < v) → dropThreshold st = DROP_THRESHOLD_VOLATILE) ∧
      ((v ≠ 0 ∧ v < 5/100) → dropThreshold st = DROP_THRESHOLD_STABLE) ∧
      ((v = 0 ∨ (5/100 ≤ v ∧ v ≤ VOLATILITY_THRESHOLD)) →
        dropThreshold st = DROP_THRESHOLD_DEFAULT)) ∧
    (∀ st : DealPriceStats, st.price_volatility = none →
      dropThreshold st = DROP_THRESHOLD_DEFAULT) ∧
    (dropThreshold statsCV22 = DROP_THRESHOLD_VOLATILE ∧
     detect_drop 89 statsCV22 = (true, some 11) ∧
     (detect_drop 89 statsCVUnset).1 = false) := by
  refine ⟨?_, ?_, ?_, ?_, ?_⟩
  · intro st v hv
    refine ⟨?_, ?_, ?_⟩
    · rintro ⟨hne, hgt⟩
      unfold dropThreshold
      rw [hv]
      rw [if_pos]
      simp [truthyQ, hne, hgt]
    · rintro ⟨hne, hlt⟩
      unfold dropThreshold
      rw [hv]
      rw [if_neg, if_pos]
      · simp [truthyQ, hne, hlt]
      · simp only [truthyQ, Option.getD_some]
        rintro ⟨-, hgt⟩
        have : (5/100 : ℚ) < VOLATILITY_THRESHOLD := by norm_num [VOLATILITY_THRESHOLD]
        linarith
    · intro hcase
      unfold dropThreshold
      rw [hv]
      rcases hcase with hz | ⟨hlo, hhi⟩
      · rw [if_neg, if_neg] <;> simp [truthyQ, hz]
      · rw [if_neg, if_neg]
        · simp only [truthyQ, Option.getD_some]
          rintro ⟨-, hlt⟩
          linarith
        · simp only [truthyQ, Option.getD_some]
          rintro ⟨-, hgt⟩
          linarith
  · intro st hnone
    unfold dropThreshold
    rw [hnone]
    rw [if_neg, if_neg] <;> simp [truthyQ]
  · norm_num [dropThreshold, statsCV22, baseStats, truthyQ, VOLATILITY_THRESHOLD,
      DROP_THRESHOLD_VOLATILE]
  · norm_num [detect_drop, dropThreshold, statsCV22, baseStats, truthyQ,
      VOLATILITY_THRESHOLD, DROP_THRESHOLD_VOLATILE, pyRound1, roundHalfEven]
  · norm_num [detect_drop, dropThreshold, statsCVUnset, baseStats, truthyQ,
      DROP_THRESHOLD_DEFAULT, VOLATILITY_THRESHOLD]

/-- Witness for C5 at concrete inputs: the volatile rule applied to the CV
22% state yields the 10% threshold, and the stable rule applied to CV 3%
yields the 15% threshold. -/
theorem C5_adaptive_threshold_witness :
    dropThreshold statsCV22 = DROP_THRESHOLD_VOLATILE ∧
    dropThreshold { baseStats with price_volatility := some (3/100) } =
      DROP_THRESHOLD_STABLE := by
  obtain ⟨hall, -, -⟩ := C5_adaptive_threshold
  constructor
  · exact ((hall statsCV22 (22/100) rfl).1 (by norm_num [VOLATILITY_THRESHOLD]))
  · exact ((hall _ (3/100) rfl).2.1 (by norm_num))

/-- Characterization of _detect_drop when both references are set and
positive: the drop fires iff the new price is at or below either reference
times (1 − threshold), and the reported percentage comes from the 30-day
floor if that signal fired, else from the previous price. -/
theorem detect_drop_spec (price f c : ℚ) (st : DealPriceStats)
    (hf : st.min_price_30d = some f) (hp : st.previous_price = some c)
    (hfpos : 0 < f) (hcpos : 0 < c) :
    ((detect_drop price st).1 = true ↔
      (price ≤ f * (1 - dropThreshold st) ∨ price ≤ c * (1 - dropThreshold st))) ∧
    (price ≤ f * (1 - dropThreshold st) →
      (detect_drop price st).2 = some (pyRound1 ((1 - price / f) * 100))) ∧
    (¬ price ≤ f * (1 - dropThreshold st) → price ≤ c * (1 - dropThreshold st) →
      (detect_drop price st).2 = some (pyRound1 ((1 - price / c) * 100))) := by
  unfold detect_drop
  rw [hf, hp]
  simp only [Option.getD_some]
  have htf : truthyQ (some f) = true := by simp [truthyQ, hfpos.ne']
  have htc : truthyQ (some c) = true := by simp [truthyQ, hcpos.ne']
  by_cases h1 : price ≤ f * (1 - dropThreshold st)
  · rw [if_pos ⟨htf, hfpos, h1⟩]
    simp [h1]
  · rw [if_neg (by rintro ⟨-, -, hc⟩; exact h1 hc)]
    by_cases h2 : price ≤ c * (1 - dropThreshold st)
    · rw [if_pos ⟨htc, hcpos, h2⟩]
      simp [h1, h2]
    · rw [if_neg (by rintro ⟨-, -, hc⟩; exact h2 hc)]
      simp [h1, h2]

/-- When the stats row exists and the price moved by more than the 0.01
epsilon, record_price_observation returns exactly what _detect_drop says on
the shifted state (current price moved to previous). -/
theorem record_reduces_to_detect (vol : List ℚ → Option ℚ) (now price : ℚ)
    (orig : Option ℚ) (db : PriceDB) (st : DealPriceStats)
    (hst : db.stats = some st) (heps : |price - st.current_price| > 1/100) :
    (record_price_observation vol now price orig db).is_drop =
      (detect_drop price (shiftStats st price)).1 ∧
    (record_price_observation vol now price orig db).drop_percent =
      (detect_drop price (shiftStats st price)).2 := by
  unfold record_price_observation
  rw [hst]
  dsimp only
  refine ⟨?_, ?_⟩ <;> rw [if_pos heps]

/-- C1 (amended): with a positive 30-day floor and positive stored current
price, and a new price beyond the epsilon, the recorded drop fires exactly
when the new price is at or below the floor times (1 − threshold) OR at or
below the old current (now previous) price times (1 − threshold) — an
either-reference rule, not the min of the two — and the reported
percentage is relative to the floor when that signal fires, else to the
previous price. -/
theorem C1_drop_fires_on_either_reference (vol : List ℚ → Option ℚ)
    (now price : ℚ) (orig : Option ℚ) (db : PriceDB) (st : DealPriceStats) (f : ℚ)
    (hst : db.stats = some st) (hf : st.min_price_30d = some f) (hfpos : 0 < f)
    (hcpos : 0 < st.current_price)
    (heps : |price - st.current_price| > 1/100) :
    ((record_price_observation vol now price orig db).is_drop = true ↔
      (price ≤ f * (1 - dropThreshold st) ∨
       price ≤ st.current_price * (1 - dropThreshold st))) ∧
    (price ≤ f * (1 - dropThreshold st) →
      (record_price_observation vol now price orig db).drop_percent =
        some (pyRound1 ((1 - price / f) * 100))) ∧
    (¬ price ≤ f * (1 - dropThreshold st) →
      price ≤ st.current_price * (1 - dropThreshold st) →
      (record_price_observation vol now price orig db).drop_percent =
        some (pyRound1 ((1 - price / st.current_price) * 100))) := by
  obtain ⟨h1, h2⟩ := record_reduces_to_detect vol now price orig db st hst heps
  rw [h1, h2]
  exact detect_drop_spec price f st.current_price _ hf rfl hfpos hcpos

/-- Concrete pre-state for C1: 30-day floor 100, stored current price 80. -/
def statsFloor100Cur80 : DealPriceStats :=
  { baseStats with current_price := 80, min_price_30d := some 100 }

/-- C1 counterexample: floor 100, stored current price 80, new price 85.
min(100, 80) × 0.88 = 70.4 < 85, so the claim says no drop fires, but the
code reports a drop of 15% against the 30-day floor (85 ≤ 100 × 0.88). -/
theorem C1_counterexample :
    dropThreshold statsFloor100Cur80 = DROP_THRESHOLD_DEFAULT ∧
    ¬ ((85 : ℚ) ≤ min 100 80 * (1 - DROP_THRESHOLD_DEFAULT)) ∧
    (record_price_observation (fun _ => none) 0 85 none
        ⟨some statsFloor100Cur80, []⟩).is_drop = true ∧
    (record_price_observation (fun _ => none) 0 85 none
        ⟨some statsFloor100Cur80, []⟩).drop_percent = some 15 := by
  refine ⟨?_, ?_, ?_, ?_⟩
  · norm_num [dropThreshold, statsFloor100Cur80, baseStats, truthyQ]
  · norm_num [DROP_THRESHOLD_DEFAULT]
  · norm_num [record_price_observation, shiftStats, applyDropFields, detect_drop,
      dropThreshold, truthyQ, statsFloor100Cur80, baseStats, DROP_THRESHOLD_DEFAULT,
      VOLATILITY_THRESHOLD, pyRound1, roundHalfEven]
  · norm_num [record_price_observation, shiftStats, applyDropFields, detect_drop,
      dropThreshold, truthyQ, statsFloor100Cur80, baseStats, DROP_THRESHOLD_DEFAULT,
      VOLATILITY_THRESHOLD, pyRound1, roundHalfEven]

/-- Witness for C1 at the concrete pre-state: floor 100, current 80, new
price 85; the floor signal fires and the reported drop is relative to it. -/
theorem C1_drop_fires_on_either_reference_witness :
    ((record_price_observation (fun _ => none) 0 85 none
        ⟨some statsFloor100Cur80, []⟩).is_drop = true ↔
      ((85 : ℚ) ≤ 100 * (1 - dropThreshold statsFloor100Cur80) ∨
       (85 : ℚ) ≤ statsFloor100Cur80.current_price *
         (1 - dropThreshold statsFloor100Cur80))) ∧
    ((85 : ℚ) ≤ 100 * (1 - dropThreshold statsFloor100Cur80) →
      (record_price_observation (fun _ => none) 0 85 none
        ⟨some statsFloor100Cur80, []⟩).drop_percent =
        some (pyRound1 ((1 - 85 / 100) * 100))) ∧
    (¬ (85 : ℚ) ≤ 100 * (1 - dropThreshold statsFloor100Cur80) →
      (85 : ℚ) ≤ statsFloor100Cur80.current_price *
        (1 - dropThreshold statsFloor100Cur80) →
      (record_price_observation (fun _ => none) 0 85 none
        ⟨some statsFloor100Cur80, []⟩).drop_percent =
        some (pyRound1 ((1 - 85 / statsFloor100Cur80.current_price) * 100))) :=
  C1_drop_fires_on_either_reference (fun _ => none) 0 85 none
    ⟨some statsFloor100Cur80, []⟩ statsFloor100Cur80 100 rfl rfl (by norm_num)
    (by norm_num [statsFloor100Cur80, baseStats])
    (by norm_num [statsFloor100Cur80, baseStats])

/-- The periodic full recompute never touches the drop flag, the drop
percent or the drop timestamp. -/
theorem update_price_stats_drop_fields (vol : List ℚ → Option ℚ) (now : ℚ)
    (history : List PriceHistoryEntry) (st : DealPriceStats) :
    (update_price_stats vol now history st).is_price_drop = st.is_price_drop ∧
    (update_price_stats vol now history st).drop_percent = st.drop_percent ∧
    (update_price_stats vol now history st).drop_detected_at = st.drop_detected_at := by
  unfold update_price_stats
  dsimp only
  split_ifs <;> exact ⟨rfl, rfl, rfl⟩

/-- A drop verdict of _detect_drop always carries a drop percentage. -/
theorem detect_drop_percent_isSome (p : ℚ) (st : DealPriceStats)
    (h : (detect_drop p st).1 = true) : (detect_drop p st).2.isSome := by
  unfold detect_drop at h ⊢
  dsimp only at h ⊢
  split_ifs at h ⊢ <;> simp_all

/-- A row with a recorded 20% drop one hour ago whose current price has
recovered to 100, above its 30-day floor 70. -/
def recoveredStats : DealPriceStats :=
  { baseStats with current_price := 100, min_price_30d := some 70,
                   is_price_drop := 1, drop_percent := some 20,
                   drop_detected_at := some 999 }

/-- The joined deal row for the recovered deal. -/
def recoveredRow : DealPriceStats × DealInfo := (recoveredStats, ⟨1, "deal"⟩)

/-- C10: once is_price_drop is 1, a later record_price_observation call
never clears the flag, the drop percent or the drop timestamp, whatever
price arrives; and get_price_drops returns a deal whose current price has
recovered above its 30-day floor, as long as drop_detected_at is within
the window. -/
theorem C10_drop_flag_sticky :
    (∀ (vol : List ℚ → Option ℚ) (now price : ℚ) (orig : Option ℚ)
       (db : PriceDB) (st : DealPriceStats), db.stats = some st →
       st.is_price_drop = 1 →
       ∃ st2, (record_price_observation vol now price orig db).db.stats = some st2 ∧
         st2.is_price_drop = 1 ∧
         (st.drop_percent.isSome → st2.drop_percent.isSome) ∧
         (st.drop_detected_at.isSome → st2.drop_detected_at.isSome)) ∧
    (recoveredStats.min_price_30d = some 70 ∧ 70 < recoveredStats.current_price ∧
     get_price_drops 10 50 24 1000 [recoveredRow] = [recoveredRow]) := by
  constructor
  · intro vol now price orig db st hst hflag
    unfold record_price_observation
    rw [hst]
    dsimp only
    set D := if |price - st.current_price| > 1/100
      then detect_drop price (shiftStats st price)
      else ((false, none) : Bool × Option ℚ) with hDdef
    set M := if |price - st.current_price| > 1/100 then shiftStats st price else st
      with hMdef
    have hD : D.1 = true → D.2.isSome := by
      rw [hDdef]
      split_ifs with hc
      · exact detect_drop_percent_isSome price (shiftStats st price)
      · intro h
        simp at h
    have hM1 : M.is_price_drop = 1 := by
      rw [hMdef]
      split_ifs <;> exact hflag
    have hM2 : st.drop_percent.isSome → M.drop_percent.isSome := by
      intro hsome
      rw [hMdef]
      split_ifs <;> exact hsome
    have hM3 : st.drop_detected_at.isSome → M.drop_detected_at.isSome := by
      intro hsome
      rw [hMdef]
      split_ifs <;> exact hsome
    have hd1 : (applyDropFields now D M).is_price_drop = 1 := by
      unfold applyDropFields
      split_ifs
      · rfl
      · exact hM1
    have hd2 : st.drop_percent.isSome → (applyDropFields now D M).drop_percent.isSome := by
      intro hsome
      unfold applyDropFields
      split_ifs with h
      · exact hD h
      · exact hM2 hsome
    have hd3 : st.drop_detected_at.isSome →
        (applyDropFields now D M).drop_detected_at.isSome := by
      intro hsome
      unfold applyDropFields
      split_ifs with h
      · rfl
      · exact hM3 hsome
    obtain ⟨hu1, hu2, hu3⟩ := update_price_stats_drop_fields vol now
      (db.history ++ [⟨price, orig, now⟩])
      { applyDropFields now D M with
          observations_count := (applyDropFields now D M).observations_count + 1
          last_updated_at := now }
    refine ⟨_, rfl, ?_, ?_, ?_⟩
    · split_ifs with h5
      · rw [hu1]
        exact hd1
      · exact hd1
    · intro hsome
      split_ifs with h5
      · rw [hu2]
        exact hd2 hsome
      · exact hd2 hsome
    · intro hsome
      split_ifs with h5
      · rw [hu3]
        exact hd3 hsome
      · exact hd3 hsome
  · refine ⟨rfl, by norm_num [recoveredStats, baseStats], ?_⟩
    unfold get_price_drops
    dsimp only
    rw [List.filter_cons]
    norm_num [priceDropFilter, recoveredRow, recoveredStats, baseStats]

/-- Witness for C10: a later observation at price 50 on the recovered-drop
row keeps the flag, the percent and the timestamp set. -/
theorem C10_drop_flag_sticky_witness :
    ∃ st2, (record_price_observation (fun _ => none) 1000 50 none
        ⟨some recoveredStats, []⟩).db.stats = some st2 ∧
      st2.is_price_drop = 1 ∧
      (recoveredStats.drop_percent.isSome → st2.drop_percent.isSome) ∧
      (recoveredStats.drop_detected_at.isSome → st2.drop_detected_at.isSome) :=
  C10_drop_flag_sticky.1 (fun _ => none) 1000 50 none ⟨some recoveredStats, []⟩
    recoveredStats rfl rfl

/-! ## Claims on the scoring engine -/

/-- Half-even rounding of a nonnegative value is nonnegative. -/
theorem roundHalfEven_nonneg {q : ℚ} (h : 0 ≤ q) : 0 ≤ roundHalfEven q := by
  unfold roundHalfEven
  dsimp only
  have hn : (0 : ℤ) ≤ ⌊q⌋ := Int.floor_nonneg.2 h
  split_ifs <;> omega

/-- Half-even rounding never overshoots an integer upper bound. -/
theorem roundHalfEven_le_of_le {q : ℚ} {m : ℤ} (h : q ≤ m) : roundHalfEven q ≤ m := by
  unfold roundHalfEven
  dsimp only
  have hfl : ⌊q⌋ ≤ m := by
    have := Int.floor_le_floor h
    rwa [Int.floor_intCast] at this
  have hq : (⌊q⌋ : ℚ) ≤ q := Int.floor_le q
  split_ifs with h1 h2 h3
  · exact hfl
  · have hlt : ((⌊q⌋ : ℚ)) < (m : ℚ) := by linarith
    have : ⌊q⌋ < m := by exact_mod_cast hlt
    omega
  · exact hfl
  · have h12 : q - ⌊q⌋ = 1/2 := le_antisymm (not_lt.1 h2) (not_lt.1 h1)
    have hlt : ((⌊q⌋ : ℚ)) < (m : ℚ) := by
      have : q = (⌊q⌋ : ℚ) + 1/2 := by linarith
      have hm : (⌊q⌋ : ℚ) + 1/2 ≤ (m : ℚ) := by
        rw [← this]
        exact h
      linarith
    have : ⌊q⌋ < m := by exact_mod_cast hlt
    omega

/-- round(x, 1) stays in [0, 100] when x does. -/
theorem pyRound1_bounds {x : ℚ} (h0 : 0 ≤ x) (h1 : x ≤ 100) :
    0 ≤ pyRound1 x ∧ pyRound1 x ≤ 100 := by
  unfold pyRound1
  constructor
  · have h := roundHalfEven_nonneg (q := 10 * x) (by linarith)
    have : (0 : ℚ) ≤ (roundHalfEven (10 * x) : ℚ) := by exact_mod_cast h
    linarith
  · have h : roundHalfEven (10 * x) ≤ (1000 : ℤ) :=
      roundHalfEven_le_of_le (by push_cast; linarith)
    have : ((roundHalfEven (10 * x) : ℤ) : ℚ) ≤ 1000 := by exact_mod_cast h
    linarith

/-- Every category resolves to one of the five configured weight sets
(unknown categories fall back to sneakers_lifestyle). -/
theorem catConfigOf_mem (c : String) :
    catConfigOf c ∈ ([⟨9/10, 95/100, 25, 7⟩, ⟨7/10, 6/10, 35, 14⟩,
      ⟨85/100, 8/10, 30, 10⟩, ⟨8/10, 85/100, 25, 7⟩,
      ⟨75/100, 7/10, 20, 14⟩] : List CatConfig) := by
  unfold catConfigOf
  simp only [CATEGORY_WEIGHTS, List.lookup]
  repeat' split
  all_goals simp

/-- Every configured brand bonus lies in [0, 1.25]. -/
theorem brand_bonus_bounds {b : String} {info : BrandInfo}
    (h : BRAND_TIERS.lookup b = some info) :
    0 ≤ info.popularity_bonus ∧ info.popularity_bonus ≤ 125/100 := by
  simp only [BRAND_TIERS, List.lookup] at h
  repeat' split at h
  all_goals cases h
  all_goals norm_num

/-- The five weight sets as explicit alternatives. -/
theorem catConfigOf_cases (c : String) :
    catConfigOf c = ⟨9/10, 95/100, 25, 7⟩ ∨ catConfigOf c = ⟨7/10, 6/10, 35, 14⟩ ∨
    catConfigOf c = ⟨85/100, 8/10, 30, 10⟩ ∨ catConfigOf c = ⟨8/10, 85/100, 25, 7⟩ ∨
    catConfigOf c = ⟨75/100, 7/10, 20, 14⟩ := by
  have h := catConfigOf_mem c
  simp only [List.mem_cons, List.not_mem_nil, or_false] at h
  exact h

/-- Every configured margin threshold is positive. -/
theorem margin_threshold_pos (c : String) : 0 < (catConfigOf c).margin_threshold := by
  rcases catConfigOf_cases c with h | h | h | h | h <;> rw [h] <;> norm_num

/-- Every configured liquidity weight is in (0, 1]. -/
theorem liquidity_weight_bounds (c : String) :
    0 < (catConfigOf c).liquidity_weight ∧ (catConfigOf c).liquidity_weight ≤ 1 := by
  rcases catConfigOf_cases c with h | h | h | h | h <;> rw [h] <;> norm_num

/-- Every configured popularity weight is in (0, 1]. -/
theorem popularity_weight_bounds (c : String) :
    0 < (catConfigOf c).popularity_weight ∧ (catConfigOf c).popularity_weight ≤ 1 := by
  rcases catConfigOf_cases c with h | h | h | h | h <;> rw [h] <;> norm_num

/-- The margin sub-score is normalized to [0, 100]. -/
theorem margin_score_bounds (mp me : ℚ) (c : String) :
    0 ≤ get_margin_score mp me c ∧ get_margin_score mp me c ≤ 100 := by
  have hth := margin_threshold_pos c
  unfold get_margin_score
  dsimp only
  refine ⟨le_min ?_ (by norm_num), min_le_right _ _⟩
  have hbase : (0 : ℚ) ≤
      (if mp ≤ 0 then (0 : ℚ)
       else if mp < (catConfigOf c).margin_threshold then
         mp / (catConfigOf c).margin_threshold * 50
       else if mp < (catConfigOf c).margin_threshold * 2 then
         50 + (mp - (catConfigOf c).margin_threshold) /
           (catConfigOf c).margin_threshold * 30
       else 80 + min ((mp - (catConfigOf c).margin_threshold * 2) / 20) 20) := by
    split_ifs with h1 h2 h3
    · exact le_refl 0
    · exact mul_nonneg (div_nonneg (le_of_lt (not_le.1 h1)) (le_of_lt hth)) (by norm_num)
    · have h4 : (0 : ℚ) ≤ (mp - (catConfigOf c).margin_threshold) /
          (catConfigOf c).margin_threshold * 30 :=
        mul_nonneg (div_nonneg (by linarith [not_lt.1 h2]) (le_of_lt hth)) (by norm_num)
      linarith
    · have h4 : (0 : ℚ) ≤ min ((mp - (catConfigOf c).margin_threshold * 2) / 20) 20 :=
        le_min (div_nonneg (by linarith [not_lt.1 h3]) (by norm_num)) (by norm_num)
      linarith
  have hbonus : (0 : ℚ) ≤ (if me ≥ 50 then (10 : ℚ) else if me ≥ 30 then 5
      else if me ≥ 20 then 2 else 0) := by
    split_ifs <;> norm_num
  linarith

/-- The liquidity sub-score is in [0, 100] when the marketplace liquidity
input is. -/
theorem liquidity_score_bounds (nl : ℕ) (lv : ℚ) (c : String)
    (h0 : 0 ≤ lv) (h1 : lv ≤ 100) :
    0 ≤ get_liquidity_score nl lv c ∧ get_liquidity_score nl lv c ≤ 100 := by
  obtain ⟨hw1, hw2⟩ := liquidity_weight_bounds c
  unfold get_liquidity_score
  dsimp only
  set ls : ℚ := (if nl = 0 then (0:ℚ) else if nl < 5 then 20 else if nl < 15 then 40
      else if nl < 30 then 60 else if nl < 50 then 80 else 100) with hls
  have hls0 : 0 ≤ ls := by rw [hls]; split_ifs <;> norm_num
  have hls1 : ls ≤ 100 := by rw [hls]; split_ifs <;> norm_num
  have hcomb0 : 0 ≤ ls * (4/10) + lv * (6/10) := by linarith
  have hcomb1 : ls * (4/10) + lv * (6/10) ≤ 100 := by linarith
  constructor
  · exact mul_nonneg hcomb0 (le_of_lt hw1)
  · have := mul_le_mul_of_nonneg_left hw2 hcomb0
    calc (ls * (4/10) + lv * (6/10)) * (catConfigOf c).liquidity_weight
        ≤ (ls * (4/10) + lv * (6/10)) * 1 := this
      _ ≤ 100 := by linarith

/-- The popularity sub-score is in [0, 100]. -/
theorem popularity_score_bounds (b : Option String) (c : String) :
    0 ≤ get_popularity_score b c ∧ get_popularity_score b c ≤ 100 := by
  obtain ⟨hw1, -⟩ := popularity_weight_bounds c
  unfold get_popularity_score
  dsimp only
  refine ⟨le_min ?_ (by norm_num), min_le_right _ _⟩
  apply mul_nonneg _ (le_of_lt hw1)
  rcases b with - | s
  · norm_num
  · dsimp only
    split_ifs with h1
    · norm_num
    · rcases hb : BRAND_TIERS.lookup s.toLower with - | info
      · norm_num
      · have hbonus := (brand_bonus_bounds hb).1
        dsimp only
        split_ifs <;> exact mul_nonneg (by norm_num) hbonus

/-- The contextual bonus added by calculate_flip_score is in [0, 18]
(season_match is always True on this call path). -/
theorem contextual_bonus_bounds (dp : ℚ) (sz : Option (List String))
    (col : Option String) :
    0 ≤ get_contextual_bonus dp sz col true ∧
    get_contextual_bonus dp sz col true ≤ 18 := by
  unfold get_contextual_bonus
  dsimp only
  have hb1 : (0:ℚ) ≤ (if dp ≥ 70 then (10:ℚ) else if dp ≥ 50 then 5 else 0) ∧
      (if dp ≥ 70 then (10:ℚ) else if dp ≥ 50 then 5 else 0) ≤ 10 := by
    constructor <;> (split_ifs <;> norm_num)
  have hb2 : (0:ℚ) ≤ (match sz with
      | none => (0:ℚ)
      | some sizes =>
          if sizes = [] then 0
          else
            if (sizes.dedup.filter (· ∈ standardSizes)).length ≥ 3 then 5
            else if (sizes.dedup.filter (· ∈ standardSizes)).length ≥ 1 then 2 else 0) ∧
      (match sz with
      | none => (0:ℚ)
      | some sizes =>
          if sizes = [] then 0
          else
            if (sizes.dedup.filter (· ∈ standardSizes)).length ≥ 3 then 5
            else if (sizes.dedup.filter (· ∈ standardSizes)).length ≥ 1 then 2 else 0) ≤ 5 := by
    rcases sz with - | l
    · norm_num
    · dsimp only
      constructor <;> (split_ifs <;> norm_num)
  have hb3 : (0:ℚ) ≤ (match col with
      | none => (0:ℚ)
      | some c =>
          if c = "" then 0
          else if safeColors.any (fun s => decide (s.toList <:+: c.toLower.toList)) then 3
          else 0) ∧
      (match col with
      | none => (0:ℚ)
      | some c =>
          if c = "" then 0
          else if safeColors.any (fun s => decide (s.toList <:+: c.toLower.toList)) then 3
          else 0) ≤ 3 := by
    rcases col with - | c
    · norm_num
    · dsimp only
      constructor <;> (split_ifs <;> norm_num)
  constructor <;> (rw [if_pos rfl] ; try rw [if_pos rfl]) <;>
    [linarith [hb1.1, hb2.1, hb3.1]; linarith [hb1.2, hb2.2, hb3.2]]

/-- C6 (amended): the composite score is the clamped-and-rounded weighted
sum margin x 0.40 + liquidity x 0.30 + popularity x 0.20 + contextual
bonus, where the fourth term is an additive bonus in [0, 18] (there is no
risk sub-score); the final score always lies in [0, 100]; the margin and
popularity sub-scores are in [0, 100], and the liquidity sub-score is in
[0, 100] whenever the marketplace liquidity input is. -/
theorem C6_composite_score (mp me : ℚ) (nl : ℕ) (lv : ℚ) (b : Option String)
    (cat : String) (dp : ℚ) (sz : Option (List String)) (col : Option String) :
    (calculate_flip_score mp me nl lv b cat dp sz col).1 =
      pyRound1 (max 0 (min 100
        (get_margin_score mp me cat * (40/100) +
         get_liquidity_score nl lv cat * (30/100) +
         get_popularity_score b cat * (20/100) +
         get_contextual_bonus dp sz col true))) ∧
    0 ≤ (calculate_flip_score mp me nl lv b cat dp sz col).1 ∧
    (calculate_flip_score mp me nl lv b cat dp sz col).1 ≤ 100 ∧
    (0 ≤ get_margin_score mp me cat ∧ get_margin_score mp me cat ≤ 100) ∧
    (0 ≤ get_popularity_score b cat ∧ get_popularity_score b cat ≤ 100) ∧
    (0 ≤ get_contextual_bonus dp sz col true ∧
     get_contextual_bonus dp sz col true ≤ 18) ∧
    (0 ≤ lv → lv ≤ 100 →
      0 ≤ get_liquidity_score nl lv cat ∧ get_liquidity_score nl lv cat ≤ 100) := by
  have hsc : (calculate_flip_score mp me nl lv b cat dp sz col).1 =
      pyRound1 (max 0 (min 100
        (get_margin_score mp me cat * (40/100) +
         get_liquidity_score nl lv cat * (30/100) +
         get_popularity_score b cat * (20/100) +
         get_contextual_bonus dp sz col true))) := rfl
  have hcl0 : (0 : ℚ) ≤ max 0 (min 100
      (get_margin_score mp me cat * (40/100) +
       get_liquidity_score nl lv cat * (30/100) +
       get_popularity_score b cat * (20/100) +
       get_contextual_bonus dp sz col true)) := le_max_left 0 _
  have hcl1 : max 0 (min 100
      (get_margin_score mp me cat * (40/100) +
       get_liquidity_score nl lv cat * (30/100) +
       get_popularity_score b cat * (20/100) +
       get_contextual_bonus dp sz col true)) ≤ 100 :=
    max_le (by norm_num) (min_le_left _ _)
  obtain ⟨hr0, hr1⟩ := pyRound1_bounds hcl0 hcl1
  rw [hsc]
  exact ⟨rfl, hr0, hr1, margin_score_bounds mp me cat, popularity_score_bounds b cat,
    contextual_bonus_bounds dp sz col,
    fun h0 h1 => liquidity_score_bounds nl lv cat h0 h1⟩

/-- Witness for C6 at concrete inputs: the score of the all-zero deal with
discount 70 and three standard sizes is within [0, 100], and its liquidity
sub-score is within [0, 100] for the zero liquidity input. -/
theorem C6_composite_score_witness :
    0 ≤ (calculate_flip_score 0 0 0 0 none "sneakers_lifestyle" 70
      (some ["40", "41", "42"]) none).1 ∧
    (calculate_flip_score 0 0 0 0 none "sneakers_lifestyle" 70
      (some ["40", "41", "42"]) none).1 ≤ 100 ∧
    0 ≤ get_liquidity_score 0 0 "sneakers_lifestyle" ∧
    get_liquidity_score 0 0 "sneakers_lifestyle" ≤ 100 := by
  obtain ⟨-, h1, h2, -, -, -, hlv⟩ := C6_composite_score 0 0 0 0 none
    "sneakers_lifestyle" 70 (some ["40", "41", "42"]) none
  obtain ⟨h3, h4⟩ := hlv (by norm_num) (by norm_num)
  exact ⟨h1, h2, h3, h4⟩

/-- C6 counterexample: with all margin and liquidity inputs zero, no brand,
discount 70% and three standard sizes, the code returns 24.5 with
sub-scores margin 0, liquidity 0, popularity 47.5 — but no risk value in
[0, 100] makes margin x 0.40 + liquidity x 0.30 + popularity x 0.20 +
(100 − risk) x 0.10 equal 24.5 (that formula caps at 19.5 here), because
the code adds the contextual bonus 15 directly instead of a risk term. -/
theorem C6_counterexample :
    (calculate_flip_score 0 0 0 0 none "sneakers_lifestyle" 70
      (some ["40", "41", "42"]) none).1 = 49/2 ∧
    (calculate_flip_score 0 0 0 0 none "sneakers_lifestyle" 70
      (some ["40", "41", "42"]) none).2.1 = 0 ∧
    (calculate_flip_score 0 0 0 0 none "sneakers_lifestyle" 70
      (some ["40", "41", "42"]) none).2.2.1 = 0 ∧
    (calculate_flip_score 0 0 0 0 none "sneakers_lifestyle" 70
      (some ["40", "41", "42"]) none).2.2.2.1 = 95/2 ∧
    ¬ ∃ risk : ℚ, 0 ≤ risk ∧ risk ≤ 100 ∧
      (49/2 : ℚ) = specCompositeFormula 0 0 (95/2) risk := by
  have hm : get_margin_score 0 0 "sneakers_lifestyle" = 0 := by
    norm_num [get_margin_score, catConfigOf, CATEGORY_WEIGHTS, List.lookup]
  have hl : get_liquidity_score 0 0 "sneakers_lifestyle" = 0 := by
    norm_num [get_liquidity_score, catConfigOf, CATEGORY_WEIGHTS, List.lookup]
  have hp : get_popularity_score none "sneakers_lifestyle" = 95/2 := by
    norm_num [get_popularity_score, catConfigOf, CATEGORY_WEIGHTS, List.lookup]
  have hc : get_contextual_bonus 70 (some ["40", "41", "42"]) none true = 15 := by
    unfold get_contextual_bonus
    dsimp only
    rw [if_pos (show (70:ℚ) ≥ 70 by norm_num),
      if_neg (show ¬ (["40", "41", "42"] : List String) = [] by simp),
      if_pos (show ((["40", "41", "42"] : List String).dedup.filter
        (· ∈ standardSizes)).length ≥ 3 by decide),
      if_pos rfl]
    norm_num
  have hw : get_margin_score 0 0 "sneakers_lifestyle" * (40/100) +
      get_liquidity_score 0 0 "sneakers_lifestyle" * (30/100) +
      get_popularity_score none "sneakers_lifestyle" * (20/100) +
      get_contextual_bonus 70 (some ["40", "41", "42"]) none true = 49/2 := by
    rw [hm, hl, hp, hc]
    norm_num
  refine ⟨?_, ?_, ?_, ?_, ?_⟩
  · show pyRound1 (max 0 (min 100 _)) = 49/2
    rw [hw, min_eq_right (by norm_num : (49/2 : ℚ) ≤ 100),
      max_eq_right (by norm_num : (0:ℚ) ≤ 49/2)]
    norm_num [pyRound1, roundHalfEven]
  · show pyRound1 (get_margin_score 0 0 "sneakers_lifestyle") = 0
    rw [hm]
    norm_num [pyRound1, roundHalfEven]
  · show pyRound1 (get_liquidity_score 0 0 "sneakers_lifestyle") = 0
    rw [hl]
    norm_num [pyRound1, roundHalfEven]
  · show pyRound1 (get_popularity_score none "sneakers_lifestyle") = 95/2
    rw [hp]
    norm_num [pyRound1, roundHalfEven]
  · rintro ⟨risk, hr0, hr1, heq⟩
    unfold specCompositeFormula at heq
    linarith

/-- C7 counterexample: with both margins zero, raising the score from 45
to 50 lowers the confidence from 0.525 (ignore branch 0.3 + score/200) to
the flat watch value 0.5. -/
theorem C7_counterexample :
    (45 : ℚ) ≤ 50 ∧
    (get_recommendation 50 0 0).2 < (get_recommendation 45 0 0).2 := by
  constructor
  · norm_num
  · norm_num [get_recommendation]

/-- Monotonicity of the confidence on [50, inf) in the top margin region
(margin percent at least 30 and margin euro at least 20). -/
theorem conf_mono_regionA (mp me s1 s2 : ℚ) (h12 : s1 ≤ s2) (h50 : 50 ≤ s1)
    (hmp : mp ≥ 30) (hme : me ≥ 20) :
    (get_recommendation s1 mp me).2 ≤ (get_recommendation s2 mp me).2 := by
  unfold get_recommendation
  have hmp25 : mp ≥ 25 := by linarith
  have hmp20 : mp ≥ 20 := by linarith
  simp only [eq_true hmp, eq_true hme, eq_true hmp25, eq_true hmp20, and_true]
  split_ifs <;> dsimp only <;>
    first
      | linarith
      | (apply le_min <;>
          linarith [min_le_left (95/100 : ℚ) (s1/100), min_le_right (95/100 : ℚ) (s1/100),
            min_le_left (85/100 : ℚ) (s1/100), min_le_right (85/100 : ℚ) (s1/100)])

/-- Monotonicity of the confidence on [50, inf) when the top buy tier is
out of reach but margin percent is at least 25. -/
theorem conf_mono_regionB (mp me s1 s2 : ℚ) (h12 : s1 ≤ s2) (h50 : 50 ≤ s1)
    (hn1 : ¬ (mp ≥ 30 ∧ me ≥ 20)) (hmp : mp ≥ 25) :
    (get_recommendation s1 mp me).2 ≤ (get_recommendation s2 mp me).2 := by
  unfold get_recommendation
  have hmp20 : mp ≥ 20 := by linarith
  simp only [eq_false hn1, and_false, eq_true hmp, eq_true hmp20, and_true, if_false]
  split_ifs <;> dsimp only <;>
    first
      | linarith
      | (apply le_min <;>
          linarith [min_le_left (85/100 : ℚ) (s1/100), min_le_right (85/100 : ℚ) (s1/100)])

/-- Monotonicity of the confidence on [50, inf) when only the watch tier
margin bar (20) is met. -/
theorem conf_mono_regionC (mp me s1 s2 : ℚ) (h12 : s1 ≤ s2) (h50 : 50 ≤ s1)
    (hn1 : ¬ (mp ≥ 30 ∧ me ≥ 20)) (hn2 : ¬ mp ≥ 25) (hmp : mp ≥ 20) :
    (get_recommendation s1 mp me).2 ≤ (get_recommendation s2 mp me).2 := by
  unfold get_recommendation
  simp only [eq_false hn1, eq_false hn2, and_false, eq_true hmp, and_true, if_false]
  split_ifs <;> dsimp only <;> linarith

/-- Monotonicity of the confidence on [50, inf) when no margin bar is
met: the confidence is the flat watch value 0.5 on both sides. -/
theorem conf_mono_regionD (mp me s1 s2 : ℚ) (h12 : s1 ≤ s2) (h50 : 50 ≤ s1)
    (hn1 : ¬ (mp ≥ 30 ∧ me ≥ 20)) (hn2 : ¬ mp ≥ 25) (hn3 : ¬ mp ≥ 20) :
    (get_recommendation s1 mp me).2 ≤ (get_recommendation s2 mp me).2 := by
  unfold get_recommendation
  simp only [eq_false hn1, eq_false hn2, eq_false hn3, and_false, if_false]
  split_ifs <;> dsimp only <;> linarith

/-- C7 (amended): for fixed margins the confidence is monotone
non-decreasing in the score on [50, 100] and on [0, 50) separately, but
not across the score-50 boundary, where the ignore-branch confidence
0.3 + score/200 (up to 0.55) exceeds the flat 0.5 watch value. -/
theorem C7_confidence_piecewise_monotone (mp me s1 s2 : ℚ) (h12 : s1 ≤ s2) :
    (50 ≤ s1 → (get_recommendation s1 mp me).2 ≤ (get_recommendation s2 mp me).2) ∧
    (s2 < 50 → 0 ≤ s1 → (get_recommendation s1 mp me).2 ≤ (get_recommendation s2 mp me).2) := by
  constructor
  · intro h50
    by_cases h1 : mp ≥ 30 ∧ me ≥ 20
    · exact conf_mono_regionA mp me s1 s2 h12 h50 h1.1 h1.2
    · by_cases h2 : mp ≥ 25
      · exact conf_mono_regionB mp me s1 s2 h12 h50 h1 h2
      · by_cases h3 : mp ≥ 20
        · exact conf_mono_regionC mp me s1 s2 h12 h50 h1 h2 h3
        · exact conf_mono_regionD mp me s1 s2 h12 h50 h1 h2 h3
  · intro h50 h0
    unfold get_recommendation
    have f1 : ¬ (s1 ≥ 80) := by linarith
    have f2 : ¬ (s1 ≥ 70) := by linarith
    have f3 : ¬ (s1 ≥ 60) := by linarith
    have f4 : ¬ (s1 ≥ 50) := by linarith
    have g1 : ¬ (s2 ≥ 80) := by linarith
    have g2 : ¬ (s2 ≥ 70) := by linarith
    have g3 : ¬ (s2 ≥ 60) := by linarith
    have g4 : ¬ (s2 ≥ 50) := by linarith
    simp only [eq_false f1, eq_false f2, eq_false f3, eq_false f4,
      eq_false g1, eq_false g2, eq_false g3, eq_false g4, false_and, if_false]
    linarith

/-- Witness for C7 at concrete inputs: with margins 30 and 20 the
confidence at score 60 is at most the confidence at score 80, and on the
low side the confidence at 30 is at most the one at 40. -/
theorem C7_confidence_piecewise_monotone_witness :
    (get_recommendation 60 30 20).2 ≤ (get_recommendation 80 30 20).2 ∧
    (get_recommendation 30 30 20).2 ≤ (get_recommendation 40 30 20).2 := by
  constructor
  · exact (C7_confidence_piecewise_monotone 30 20 60 80 (by norm_num)).1 (by norm_num)
  · exact (C7_confidence_piecewise_monotone 30 20 30 40 (by norm_num)).2
      (by norm_num) (by norm_num)

/-! ## Claims on the scrape orchestrator -/

/-- List.lookup distributes over append via the first hit. -/
theorem lookup_append {α : Type} (l1 l2 : List (String × α)) (k : String) :
    (l1 ++ l2).lookup k =
      (match l1.lookup k with
       | some v => some v
       | none => l2.lookup k) := by
  induction l1 with
  | nil => simp [List.lookup]
  | cons p t ih =>
      rcases p with ⟨a, b⟩
      by_cases ha : k = a
      · simp [List.lookup, ha]
      · simp only [List.cons_append, List.lookup]
        rw [show (k == a) = false by simp [ha]]
        exact ih

/-- Looking up in the map-replace used by dict assignment. -/
theorem lookup_map_replace {α : Type} (d : List (String × α)) (k : String)
    (v : α) (q : String) :
    (d.map (fun p => if p.1 = k then (k, v) else p)).lookup q =
      (if q = k then (if (d.lookup k).isSome then some v else none)
       else d.lookup q) := by
  induction d with
  | nil => simp [List.lookup]
  | cons p t ih =>
      rcases p with ⟨a, b⟩
      simp only [List.map_cons]
      by_cases hak : a = k
      · rw [if_pos hak]
        by_cases hq : q = k
        · subst hq
          simp [List.lookup, hak]
        · simp [List.lookup, hq, ih, hak]
          rw [show (q == k) = false from beq_eq_false_iff_ne.2 hq]
      · rw [if_neg hak]
        by_cases hq : q = a
        · subst hq
          have hqk : ¬ q = k := hak
          simp [List.lookup, ih, hqk]
        · simp only [List.lookup, ih]
          rw [show (q == a) = false from beq_eq_false_iff_ne.2 hq]
          simp only [show (k == a) = false from beq_eq_false_iff_ne.2 (fun h => hak h.symm)]

/-- Python dict assignment d[k] = v seen through lookup: the written key
now maps to v, every other key is untouched. -/
theorem lookup_dictInsert {α : Type} (d : List (String × α)) (k : String)
    (v : α) (q : String) :
    (dictInsert d k v).lookup q = (if q = k then some v else d.lookup q) := by
  unfold dictInsert
  by_cases hs : (d.lookup k).isSome
  · rw [if_pos hs, lookup_map_replace]
    split_ifs with hq
    · simp [hs]
    · rfl
  · rw [if_neg hs, lookup_append]
    by_cases hq : q = k
    · subst hq
      rcases h : d.lookup q with - | w
      · simp [List.lookup]
      · rw [h] at hs
        exact absurd rfl hs
    · rcases h : d.lookup q with - | w
      · simp [List.lookup, hq, if_neg hq]
        simp [show (q == k) = false by simp [hq]]
      · simp [hq]

/-- The error entry a source contributes to the errors list, if any. -/
def errEntry (outcome : String → Except String SourceRunResult)
    (s : String) : Option (String × String) :=
  match outcome s with
  | .error e => some (s, e)
  | .ok _ => none

/-- The scraped count a source contributes to total_scraped. -/
def scrapedOf (outcome : String → Except String SourceRunResult) (s : String) : ℕ :=
  match outcome s with
  | .ok r => r.scraped
  | .error _ => 0

/-- Characterization of the result-processing fold, generalized over the
accumulator: errors and totals accumulate in order, and by_source answers
every queried source with its own outcome. -/
theorem processStep_fold_spec (outcome : String → Except String SourceRunResult)
    (sources : List String) (acc : OrchestratorResults × List ℕ) :
    (sources.foldl (processStep outcome) acc).1.errors =
      acc.1.errors ++ sources.filterMap (errEntry outcome) ∧
    (sources.foldl (processStep outcome) acc).1.total_scraped =
      acc.1.total_scraped + (sources.map (scrapedOf outcome)).sum ∧
    (∀ src, (sources.foldl (processStep outcome) acc).1.by_source.lookup src =
      (if src ∈ sources then some (outcome src) else acc.1.by_source.lookup src)) := by
  induction sources generalizing acc with
  | nil => simp
  | cons s t ih =>
      obtain ⟨ih1, ih2, ih3⟩ := ih (processStep outcome acc s)
      have hstep_err : (processStep outcome acc s).1.errors =
          acc.1.errors ++ (errEntry outcome s).toList := by
        unfold processStep errEntry
        rcases outcome s with e | r <;> simp
      have hstep_tot : (processStep outcome acc s).1.total_scraped =
          acc.1.total_scraped + scrapedOf outcome s := by
        unfold processStep scrapedOf
        rcases outcome s with e | r <;> simp
      have hstep_by : ∀ src, (processStep outcome acc s).1.by_source.lookup src =
          (if src = s then some (outcome s) else acc.1.by_source.lookup src) := by
        intro src
        unfold processStep
        rcases h : outcome s with e | r <;>
          simp [lookup_dictInsert, h]
      refine ⟨?_, ?_, ?_⟩
      · rw [List.foldl_cons, ih1, hstep_err]
        simp [List.filterMap_cons, errEntry]
        rcases outcome s with e | r <;> simp
      · rw [List.foldl_cons, ih2, hstep_tot]
        simp [List.map_cons]
        omega
      · intro src
        rw [List.foldl_cons, ih3 src]
        by_cases hmem : src ∈ t
        · simp [hmem, List.mem_cons]
        · rw [if_neg hmem, hstep_by src]
          by_cases hsrc : src = s
          · simp [hsrc, List.mem_cons]
          · simp [hsrc, hmem, List.mem_cons]

/-- C9: run_all_scrapers always returns a results value with a by_source
entry for every source; a raising source is captured in the errors list
and as an error by_source entry while every succeeding source keeps its
full result; errors are exactly the failing sources in order, and the
aggregate scraped count sums the successes. -/
theorem C9_partial_failure_isolation (sources : List String)
    (outcome : String → Except String SourceRunResult) (scoreOk : ℕ → Bool) :
    (∀ src, src ∈ sources →
      (run_all_scrapers sources outcome scoreOk).by_source.lookup src =
        some (outcome src)) ∧
    (∀ src e, src ∈ sources → outcome src = .error e →
      (src, e) ∈ (run_all_scrapers sources outcome scoreOk).errors) ∧
    (∀ src r, src ∈ sources → outcome src = .ok r →
      (run_all_scrapers sources outcome scoreOk).by_source.lookup src =
        some (.ok r)) ∧
    (run_all_scrapers sources outcome scoreOk).errors =
      sources.filterMap (errEntry outcome) ∧
    (run_all_scrapers sources outcome scoreOk).total_scraped =
      (sources.map (scrapedOf outcome)).sum := by
  obtain ⟨h1, h2, h3⟩ := processStep_fold_spec outcome sources (⟨0, 0, 0, [], []⟩, [])
  have hby : ∀ src, (run_all_scrapers sources outcome scoreOk).by_source.lookup src =
      (if src ∈ sources then some (outcome src) else none) := by
    intro src
    show (processResults sources outcome).1.by_source.lookup src = _
    unfold processResults
    rw [h3 src]
    split_ifs <;> simp [List.lookup]
  have herr : (run_all_scrapers sources outcome scoreOk).errors =
      sources.filterMap (errEntry outcome) := by
    show (processResults sources outcome).1.errors = _
    unfold processResults
    rw [h1]
    simp
  refine ⟨?_, ?_, ?_, herr, ?_⟩
  · intro src hmem
    rw [hby src, if_pos hmem]
  · intro src e hmem he
    rw [herr]
    exact List.mem_filterMap.2 ⟨src, hmem, by simp [errEntry, he]⟩
  · intro src r hmem hr
    rw [hby src, if_pos hmem, hr]
  · show (processResults sources outcome).1.total_scraped = _
    unfold processResults
    rw [h2]
    simp

/-- The concrete outcome function of the C9 witness: source a succeeds
with 3 scraped items and one new deal, source b raises. -/
def witnessOutcome : String → Except String SourceRunResult :=
  fun s => if s = "a" then .ok ⟨3, [7], 1⟩ else .error "boom"

/-- Witness for C9 at concrete inputs: in a two-source batch where b
raises, a keeps its full result entry and the error of b is captured. -/
theorem C9_partial_failure_isolation_witness :
    (run_all_scrapers ["a", "b"] witnessOutcome (fun _ => true)).by_source.lookup "a" =
      some (.ok ⟨3, [7], 1⟩) ∧
    ("b", "boom") ∈ (run_all_scrapers ["a", "b"] witnessOutcome (fun _ => true)).errors := by
  obtain ⟨-, h2, h3, -, -⟩ :=
    C9_partial_failure_isolation ["a", "b"] witnessOutcome (fun _ => true)
  constructor
  · exact h3 "a" ⟨3, [7], 1⟩ (by simp) (by simp [witnessOutcome])
  · exact h2 "b" "boom" (by simp) (by simp [witnessOutcome])
